import Mathlib

/-!
Verification of the fancheng civil-law entity / intent-declaration core.

Shallow embedding of the Rust sources:
  src/core/entity/base.rs, src/core/entity/natural_person.rs,
  src/core/entity/unincorporated.rs, src/contract/intent/content.rs,
  src/contract/intent/declaration.rs, src/contract/base.rs.

Modelling conventions:
  - `Uuid` is a natural number; `Uuid::new_v4()` (randomness) becomes an
    explicit parameter of each constructor.
  - `DateTime<Utc>` appears in the code in two roles: full instants compared
    with `<` / `>`, and `.year()` extraction for age computation.  `Utc::now()`
    is passed explicitly as a `Now` value carrying both facets; stored
    timestamps are the `Int` instant.
  - `i32 as u8` (the age cast) is `(d % 256).toNat` on `Int`, which agrees
    with Rust's truncating cast of the two's-complement low byte.
  - SHA-256 (the external `sha2` crate) is passed as an explicit parameter
    `h : String → String`; feeding a hasher two byte slices equals hashing
    their concatenation, so a single application to the concatenated string
    is faithful.  All equality claims hold for every such `h`.
  - `rust_decimal::Decimal` is modelled as `Int`: the claims use only
    equality and self-consistent formatting of amounts.
  - `&mut self` methods returning `Result` become functions returning the
    result paired with the (possibly unchanged) state.
  - `HashMap<String,String>` becomes an association list; only emptiness is
    ever inspected by the embedded operations.
-/

abbrev Uuid := Nat

abbrev Decimal := Int

/-- Utc::now(): the instant (for order comparisons) and its calendar year. -/
structure Now where
  instant : Int
  year : Int

/-- src/error.rs FanError (message payloads only; the claims look at the
error category, not the context record). -/
inductive FanError
  | ValidationError (msg : String)
  | SystemError (msg : String)
deriving DecidableEq

/-- src/core/entity/base.rs EntityType. -/
inductive EntityType
  | NaturalPerson
  | LegalPerson
  | UnincorporatedOrg
deriving DecidableEq

/-- src/core/entity/natural_person.rs MentalStatus. -/
inductive MentalStatus
  | Normal
  | PartiallyImpaired
  | SeverelyImpaired
deriving DecidableEq

/-- src/core/entity/base.rs NaturalCapacity. -/
inductive NaturalCapacity
  | Full
  | Limited
  | None
deriving DecidableEq

/-- src/core/entity/base.rs BusinessStatus. -/
inductive BusinessStatus
  | Normal
  | Restricted
  | Suspended
deriving DecidableEq

/-- src/core/entity/base.rs BusinessScope. -/
structure BusinessScope where
  status : BusinessStatus
  permitted_activities : List String
  restrictions : Option (List String)
deriving DecidableEq

/-- src/core/entity/base.rs AuthorityStatus. -/
inductive AuthorityStatus
  | Full
  | Limited
  | Suspended
deriving DecidableEq

/-- src/core/entity/base.rs AuthorityScope. -/
structure AuthorityScope where
  status : AuthorityStatus
  permitted_authorities : List String
  restrictions : Option (List String)
deriving DecidableEq

/-- src/core/entity/base.rs CapacityStatus. -/
inductive CapacityStatus
  | NaturalPerson (c : NaturalCapacity)
  | LegalPerson (s : BusinessScope)
  | UnincorporatedOrg (s : AuthorityScope)
deriving DecidableEq

/-- src/core/entity/base.rs BaseEntity. -/
structure BaseEntity where
  id : Uuid
  entity_type : EntityType
  capacity_status : CapacityStatus
  created_at : Int
  updated_at : Int
deriving DecidableEq

/-- src/core/entity/natural_person.rs GuardianshipScope. -/
structure GuardianshipScope where
  permitted_actions : List String
deriving DecidableEq

/-- src/core/entity/natural_person.rs Guardianship. -/
structure Guardianship where
  guardian : Uuid
  ward : Uuid
  scope : GuardianshipScope
  created_at : Int
  valid_until : Option Int
deriving DecidableEq

/-- src/core/entity/natural_person.rs NaturalPerson (birth_date kept as its
year, the only facet the code ever reads). -/
structure NaturalPerson where
  base : BaseEntity
  birth_year : Int
  mental_status : MentalStatus
  guardian : Option Guardianship
  is_guardian : Bool
deriving DecidableEq

/-- Rust `i32 as u8`: truncation to the low byte. -/
def u8cast (d : Int) : Nat := (d % 256).toNat

/-- NaturalPerson::evaluate_capacity (natural_person.rs lines 110-124):
age = (now.year() - birth_date.year()) as u8, then the match over
(age, mental_status) with arms in source order. -/
def NaturalPerson.evaluate_capacity (nowYear birthYear : Int)
    (mental_status : MentalStatus) : NaturalCapacity :=
  let age := u8cast (nowYear - birthYear)
  match mental_status with
  | MentalStatus.Normal =>
      if age ≥ 18 then NaturalCapacity.Full
      else if age ≥ 8 then NaturalCapacity.Limited
      else NaturalCapacity.None
  | MentalStatus.PartiallyImpaired => NaturalCapacity.Limited
  | MentalStatus.SeverelyImpaired => NaturalCapacity.None

/-- NaturalPerson::new (id replaces Uuid::new_v4, now replaces Utc::now). -/
def NaturalPerson.new (id : Uuid) (now : Now) (birthYear : Int)
    (mental_status : MentalStatus) : NaturalPerson :=
  { base :=
      { id := id
        entity_type := EntityType.NaturalPerson
        capacity_status := CapacityStatus.NaturalPerson
          (NaturalPerson.evaluate_capacity now.year birthYear mental_status)
        created_at := now.instant
        updated_at := now.instant }
    birth_year := birthYear
    mental_status := mental_status
    guardian := none
    is_guardian := false }

/-- NaturalPerson::age: (now.year() - birth_date.year()) as u8. -/
def NaturalPerson.age (p : NaturalPerson) (nowYear : Int) : Nat :=
  u8cast (nowYear - p.birth_year)

/-- NaturalPerson::update_mental_status (always returns Ok(()); the new
state is the value).  Sets the status, recomputes capacity when the stored
capacity is of natural-person shape, and bumps updated_at. -/
def NaturalPerson.update_mental_status (p : NaturalPerson) (now : Now)
    (new_status : MentalStatus) : NaturalPerson :=
  let p1 := { p with mental_status := new_status }
  let recomputed := CapacityStatus.NaturalPerson
    (NaturalPerson.evaluate_capacity now.year p1.birth_year p1.mental_status)
  let p2 :=
    match p1.base.capacity_status with
    | CapacityStatus.NaturalPerson _ =>
        { p1 with base := { p1.base with capacity_status := recomputed } }
    | _ => p1
  { p2 with base := { p2.base with updated_at := now.instant } }

/-- NaturalPerson::can_be_guardian (natural_person.rs lines 226-232). -/
def NaturalPerson.can_be_guardian (p : NaturalPerson) (nowYear : Int) : Bool :=
  (match p.base.capacity_status with
   | CapacityStatus.NaturalPerson NaturalCapacity.Full => true
   | _ => false)
  && (if p.mental_status = MentalStatus.Normal then true else false)
  && (if p.age nowYear ≥ 18 then true else false)

/-- NaturalPerson::set_guardian (natural_person.rs lines 140-156): the
result together with the final (ward, guardian) states; on error both are
returned unchanged, mirroring the untouched &mut borrows. -/
def NaturalPerson.set_guardian (ward guardian : NaturalPerson)
    (scope : GuardianshipScope) (now : Now) :
    Except FanError Unit × NaturalPerson × NaturalPerson :=
  if !(guardian.can_be_guardian now.year) then
    (Except.error (FanError.ValidationError "Invalid guardian"), ward, guardian)
  else
    let ward1 := { ward with
      guardian := some
        { guardian := guardian.base.id
          ward := ward.base.id
          scope := scope
          created_at := now.instant
          valid_until := none }
      base := { ward.base with updated_at := now.instant } }
    let guardian1 := { guardian with
      is_guardian := true
      base := { guardian.base with updated_at := now.instant } }
    (Except.ok (), ward1, guardian1)

/-- Entity::has_capacity for NaturalPerson (natural_person.rs 253-261). -/
def NaturalPerson.has_capacity (p : NaturalPerson) : Bool :=
  match p.base.capacity_status with
  | CapacityStatus.NaturalPerson NaturalCapacity.Full => true
  | _ => false

/-- src/core/entity/unincorporated.rs UnincorporatedOrgType. -/
inductive UnincorporatedOrgType
  | Partnership
  | IndividualBusiness
  | Branch
  | ResidentCommittee
  | VillageCommittee
  | Other
deriving DecidableEq

/-- src/core/entity/unincorporated.rs UnincorporatedOrg (partner
bookkeeping fields carry f32/f64 contributions, which no embedded claim
reads; they are elided). -/
structure UnincorporatedOrg where
  base : BaseEntity
  org_type : UnincorporatedOrgType
  executive_partner : Option Uuid
  proprietor : Option Uuid
  registered_address : String
  establishment_date : Int
deriving DecidableEq

/-- Entity::has_capacity for UnincorporatedOrg (unincorporated.rs 214-219):
true exactly when the capacity status is of unincorporated-org shape;
the authority scope inside is never inspected. -/
def UnincorporatedOrg.has_capacity (o : UnincorporatedOrg) : Bool :=
  match o.base.capacity_status with
  | CapacityStatus.UnincorporatedOrg _ => true
  | _ => false

/-- src/core/entity/unincorporated.rs SyncUnincorporatedOrg: the lock-free
facet; every lock-wrapped field is read through RwLock::read, so the state
is the same record. -/
structure SyncUnincorporatedOrg where
  base : BaseEntity
  org_type : UnincorporatedOrgType
deriving DecidableEq

/-- Entity::has_capacity for SyncUnincorporatedOrg (unincorporated.rs
395-400): identical decision to the plain variant. -/
def SyncUnincorporatedOrg.has_capacity (o : SyncUnincorporatedOrg) : Bool :=
  match o.base.capacity_status with
  | CapacityStatus.UnincorporatedOrg _ => true
  | _ => false

/-- Arc<dyn Entity> at the call sites embedded here: a closed sum over the
entity kinds the claims exercise (design note section 9 of the spec). -/
inductive EntityObj
  | naturalPerson (p : NaturalPerson)
  | unincorporatedOrg (o : UnincorporatedOrg)
deriving DecidableEq

/-- Entity::id dynamic dispatch. -/
def EntityObj.id : EntityObj → Uuid
  | EntityObj.naturalPerson p => p.base.id
  | EntityObj.unincorporatedOrg o => o.base.id

/-- Entity::has_capacity dynamic dispatch. -/
def EntityObj.has_capacity : EntityObj → Bool
  | EntityObj.naturalPerson p => p.has_capacity
  | EntityObj.unincorporatedOrg o => o.has_capacity

/-- src/contract/intent/content.rs SubjectMatterType. -/
inductive SubjectMatterType
  | SpecificGoods
  | GenericGoods
  | Service
  | IntellectualProperty
  | Other (name : String)
deriving DecidableEq

/-- SubjectMatterType::to_string (content.rs 47-55). -/
def SubjectMatterType.str : SubjectMatterType → String
  | SubjectMatterType.SpecificGoods => "specific_goods"
  | SubjectMatterType.GenericGoods => "generic_goods"
  | SubjectMatterType.Service => "service"
  | SubjectMatterType.IntellectualProperty => "intellectual_property"
  | SubjectMatterType.Other name => name

/-- src/contract/intent/content.rs SubjectMatter. -/
structure SubjectMatter where
  id : Uuid
  subject_type : SubjectMatterType
  name : String
  description : Option String
deriving DecidableEq

/-- Display for SubjectMatter (content.rs 99-103): "name_type". -/
def SubjectMatter.display (sm : SubjectMatter) : String :=
  sm.name ++ "_" ++ sm.subject_type.str

/-- src/contract/intent/content.rs QuantityUnit. -/
inductive QuantityUnit
  | Piece
  | Kilogram
  | Meter
  | Square
  | Cubic
  | Other (s : String)
deriving DecidableEq

/-- Rust Debug formatting of QuantityUnit, used inside essential_hash. -/
def QuantityUnit.debugFmt : QuantityUnit → String
  | QuantityUnit.Piece => "Piece"
  | QuantityUnit.Kilogram => "Kilogram"
  | QuantityUnit.Meter => "Meter"
  | QuantityUnit.Square => "Square"
  | QuantityUnit.Cubic => "Cubic"
  | QuantityUnit.Other s => "Other(\"" ++ s ++ "\")"

/-- src/contract/intent/content.rs Quantity. -/
structure Quantity where
  amount : Decimal
  unit : QuantityUnit
deriving DecidableEq

/-- src/contract/intent/content.rs Quality. -/
structure Quality where
  standard : String
  requirements : List String
  warranty_period : Option Int
deriving DecidableEq

/-- src/contract/intent/content.rs Price. -/
structure Price where
  amount : Decimal
  currency : String
  payment_method : String
  payment_deadline : Option Int
deriving DecidableEq

/-- src/contract/intent/content.rs Location. -/
structure Location where
  address : String
  requirements : Option String
deriving DecidableEq

/-- src/contract/intent/content.rs TimeLimit. -/
structure TimeLimit where
  start_time : Option Int
  end_time : Int
  is_installment : Bool
  installment_plan : Option (List Int)
deriving DecidableEq

/-- src/contract/intent/content.rs IntentContent (additional_terms is the
HashMap<String,String> as an association list). -/
structure IntentContent where
  subject_matter : SubjectMatter
  quantity : Option Quantity
  quality : Option Quality
  price : Option Price
  time_limit : Option TimeLimit
  location : Option Location
  additional_obligations : List String
  additional_terms : List (String × String)
deriving DecidableEq

/-- IntentContent::is_essential (content.rs 264-289): empty subject-matter
name is never essential; then the per-kind minimum elements. -/
def IntentContent.is_essential (c : IntentContent) : Bool :=
  if c.subject_matter.name.isEmpty then false
  else
    match c.subject_matter.subject_type with
    | SubjectMatterType.SpecificGoods => c.price.isSome
    | SubjectMatterType.GenericGoods => c.price.isSome
    | SubjectMatterType.Service => c.time_limit.isSome && c.price.isSome
    | SubjectMatterType.IntellectualProperty =>
        c.price.isSome && !c.additional_terms.isEmpty
    | SubjectMatterType.Other _ => true

/-- IntentContent::essential_hash (content.rs 293-319): the parts joined by
"_", hashed, hex-encoded with prefix "0x".  The SHA-256 digest-and-hex step
is the parameter h. -/
def IntentContent.essential_hash (h : String → String) (c : IntentContent) :
    String :=
  let essential := [c.subject_matter.display]
  let essential :=
    match c.price with
    | some price => essential ++ [toString price.amount ++ "_" ++ price.currency]
    | none => essential
  let essential :=
    match c.quantity with
    | some quantity =>
        essential ++ [toString quantity.amount ++ "_" ++ quantity.unit.debugFmt]
    | none => essential
  "0x" ++ h (String.intercalate "_" essential)

/-- src/contract/intent/declaration.rs DeclarationType. -/
inductive DeclarationType
  | Offer
  | Acceptance
  | CounterOffer
  | Revocation
  | Withdrawal
  | OfferInvitation
deriving DecidableEq

/-- src/contract/intent/declaration.rs DeclarationStatus. -/
inductive DeclarationStatus
  | Created
  | Effective
  | Revoked
  | Withdrawn
deriving DecidableEq

/-- src/contract/intent/declaration.rs IntentDeclaration. -/
structure IntentDeclaration where
  id : Uuid
  match_code : String
  declaration_type : DeclarationType
  declarant : EntityObj
  recipient : Option EntityObj
  content : IntentContent
  created_at : Int
  valid_until : Option Int
  delivered_at : Option Int
  status : DeclarationStatus
deriving DecidableEq

/-- Insertion step of Vec::sort on the collected party ids. -/
def insertSorted (x : Uuid) : List Uuid → List Uuid
  | [] => [x]
  | y :: ys => if x ≤ y then x :: y :: ys else y :: insertSorted x ys

/-- Vec::sort over party ids (stable comparison sort; insertion sort is
extensionally the sort used, and only the sorted output matters). -/
def sortIds : List Uuid → List Uuid
  | [] => []
  | x :: xs => insertSorted x (sortIds xs)

/-- Uuid Display: the numeric stand-in is printed decimally. -/
def uuidStr (u : Uuid) : String := toString u

/-- IntentDeclaration::calculate_match_code (declaration.rs 165-187):
sorted party ids joined by "|", then the essential-content hash, fed to
SHA-256 and hex-encoded; hashing two updates equals hashing the
concatenation. -/
def IntentDeclaration.calculate_match_code (h : String → String)
    (d : IntentDeclaration) : String :=
  let party_ids := [d.declarant.id] ++
    (match d.recipient with
     | some recipient => [recipient.id]
     | none => [])
  let party_ids := sortIds party_ids
  let party_str := String.intercalate "|" (party_ids.map uuidStr)
  h (party_str ++ d.content.essential_hash h)

/-- The instance built inside IntentDeclaration::new before the match code
is filled in (declaration.rs 116-127). -/
def IntentDeclaration.mkRaw (id : Uuid) (now : Int)
    (declaration_type : DeclarationType) (declarant : EntityObj)
    (recipient : Option EntityObj) (content : IntentContent)
    (valid_until : Option Int) : IntentDeclaration :=
  { id := id
    match_code := ""
    declaration_type := declaration_type
    declarant := declarant
    recipient := recipient
    content := content
    created_at := now
    valid_until := valid_until
    delivered_at := none
    status := DeclarationStatus.Created }

/-- IntentDeclaration::new (declaration.rs 99-133): capacity checks first,
then the instance with a temporary empty match code, then the match code
is filled in. -/
def IntentDeclaration.new (h : String → String) (id : Uuid) (now : Int)
    (declaration_type : DeclarationType) (declarant : EntityObj)
    (recipient : Option EntityObj) (content : IntentContent)
    (valid_until : Option Int) : Except FanError IntentDeclaration :=
  if !declarant.has_capacity then
    Except.error (FanError.ValidationError "表意人无行为能力")
  else if (match recipient with
           | some r => !r.has_capacity
           | none => false) then
    Except.error (FanError.ValidationError "相对人无行为能力")
  else
    let instance0 : IntentDeclaration :=
      IntentDeclaration.mkRaw id now declaration_type declarant recipient
        content valid_until
    Except.ok { instance0 with
      match_code := instance0.calculate_match_code h }

/-- IntentDeclaration::is_valid (declaration.rs 224-240): status must be
Effective, and when a deadline exists, Utc::now() > valid_until is invalid. -/
def IntentDeclaration.is_valid (d : IntentDeclaration) (now : Int) : Bool :=
  if d.status ≠ DeclarationStatus.Effective then false
  else
    match d.valid_until with
    | some valid_until => if now > valid_until then false else true
    | none => true

/-- IntentDeclaration::can_form_contract_with (declaration.rs 191-200). -/
def IntentDeclaration.can_form_contract_with (d other : IntentDeclaration)
    (now : Int) : Bool :=
  if !(d.is_valid now) || !(other.is_valid now) then false
  else if d.match_code = other.match_code then true else false

/-- IntentDeclaration::matches (declaration.rs 208-214). -/
def IntentDeclaration.matchesDecl (d other : IntentDeclaration) : Bool :=
  (if d.match_code = other.match_code then true else false)
  || ((if d.declaration_type = other.declaration_type then true else false)
      && (if d.declarant.id = other.declarant.id then true else false)
      && (if (d.recipient.map EntityObj.id) = (other.recipient.map EntityObj.id)
          then true else false))

/-- IntentDeclaration::revoke (declaration.rs 276-286): result plus the
final state; errors leave the state unchanged. -/
def IntentDeclaration.revoke (d : IntentDeclaration) :
    Except String Unit × IntentDeclaration :=
  if d.status ≠ DeclarationStatus.Created then
    (Except.error "只能撤回尚未生效的意思表示", d)
  else
    (Except.ok (), { d with status := DeclarationStatus.Revoked })

/-- IntentDeclaration::withdraw (declaration.rs 297-307). -/
def IntentDeclaration.withdraw (d : IntentDeclaration) :
    Except String Unit × IntentDeclaration :=
  if d.status ≠ DeclarationStatus.Effective then
    (Except.error "只能撤销已经生效的意思表示", d)
  else
    (Except.ok (), { d with status := DeclarationStatus.Withdrawn })

/-- IntentDeclaration::make_effective (declaration.rs 318-327). -/
def IntentDeclaration.make_effective (d : IntentDeclaration) :
    Except String Unit × IntentDeclaration :=
  if d.status ≠ DeclarationStatus.Created then
    (Except.error "只有新创建的意思表示才能生效", d)
  else
    (Except.ok (), { d with status := DeclarationStatus.Effective })

/-- IntentDeclaration::mark_as_delivered (declaration.rs 373-377):
unconditionally records the delivery time and sets status Effective. -/
def IntentDeclaration.mark_as_delivered (d : IntentDeclaration)
    (now : Int) : Except FanError Unit × IntentDeclaration :=
  (Except.ok (),
   { d with delivered_at := some now, status := DeclarationStatus.Effective })

/-- BaseContract::validate_parties (contract/base.rs 140-164): non-empty
party list, then the first party lacking capacity yields the error. -/
def BaseContract.validate_parties (parties : List EntityObj) :
    Except FanError Unit :=
  if parties.isEmpty then
    Except.error (FanError.ValidationError "合同当事人不能为空")
  else
    match parties.find? (fun party => !party.has_capacity) with
    | some _ => Except.error (FanError.ValidationError "当事人缺乏必要的行为能力")
    | none => Except.ok ()

/-- Helper: on a byte-ranged difference the u8 cast is the identity. -/
theorem u8cast_of_range (d : Int) (hlo : 0 ≤ d) (hhi : d < 256) :
    (u8cast d : Int) = d := by
  unfold u8cast
  rw [Int.emod_eq_of_lt hlo hhi]
  omega

/-- The capacity policy exactly as the spec and claim C1 word it, as a
function of the signed calendar-year difference (the second definition of
the refinement pair; compare NaturalPerson.evaluate_capacity). -/
def capacityPolicySpec (age : Int) (mental_status : MentalStatus) :
    NaturalCapacity :=
  match mental_status with
  | MentalStatus.Normal =>
      if 18 ≤ age then NaturalCapacity.Full
      else if 8 ≤ age then NaturalCapacity.Limited
      else NaturalCapacity.None
  | MentalStatus.PartiallyImpaired => NaturalCapacity.Limited
  | MentalStatus.SeverelyImpaired => NaturalCapacity.None

/-- C1 counterexample: for a birth year one calendar year in the future the
calendar-year difference is -1, so the claimed policy gives None, but the
code's `as u8` cast wraps -1 to 255 and classifies the person as Full; the
construction path stores that Full classification. -/
theorem C1_counterexample :
    NaturalPerson.evaluate_capacity 2026 2027 MentalStatus.Normal
        = NaturalCapacity.Full
    ∧ capacityPolicySpec ((2026 : Int) - 2027) MentalStatus.Normal
        = NaturalCapacity.None
    ∧ (NaturalPerson.new 1 (Now.mk 0 2026) 2027 MentalStatus.Normal).base.capacity_status
        = CapacityStatus.NaturalPerson NaturalCapacity.Full := by
  refine ⟨by decide, by decide, by decide⟩

/-- C1 (amended): when the calendar-year difference lies in [0, 255] the
derived classification is exactly the claimed pure function of age and
mental status; it is stored at construction, and update_mental_status
recomputes it for any natural-person-shaped entity.  (Outside that range
the code's `as u8` cast wraps the difference modulo 256.) -/
theorem C1_amended_capacity_classification (id : Uuid) (now : Now)
    (birthYear : Int) (ms ms2 : MentalStatus) (p : NaturalPerson)
    (hlo : 0 ≤ now.year - birthYear) (hhi : now.year - birthYear < 256)
    (hshape : ∃ c, p.base.capacity_status = CapacityStatus.NaturalPerson c)
    (hby : p.birth_year = birthYear) :
    NaturalPerson.evaluate_capacity now.year birthYear ms
        = capacityPolicySpec (now.year - birthYear) ms
    ∧ (NaturalPerson.new id now birthYear ms).base.capacity_status
        = CapacityStatus.NaturalPerson (capacityPolicySpec (now.year - birthYear) ms)
    ∧ (p.update_mental_status now ms2).base.capacity_status
        = CapacityStatus.NaturalPerson (capacityPolicySpec (now.year - birthYear) ms2) := by
  have key : ∀ m, NaturalPerson.evaluate_capacity now.year birthYear m
      = capacityPolicySpec (now.year - birthYear) m := by
    intro m
    have hcast := u8cast_of_range (now.year - birthYear) hlo hhi
    unfold NaturalPerson.evaluate_capacity capacityPolicySpec
    cases m <;> simp only
    split_ifs <;> first | rfl | omega
  refine ⟨key ms, ?_, ?_⟩
  · simp [NaturalPerson.new, key ms]
  · obtain ⟨c, hc⟩ := hshape
    simp [NaturalPerson.update_mental_status, hc, hby, key ms2]

/-- Witness for C1_amended_capacity_classification at a 20-year-old. -/
theorem C1_amended_witness :
    NaturalPerson.evaluate_capacity (Now.mk 100 2026).year 2006 MentalStatus.Normal
        = capacityPolicySpec ((Now.mk 100 2026).year - 2006) MentalStatus.Normal
    ∧ (NaturalPerson.new 1 (Now.mk 100 2026) 2006 MentalStatus.Normal).base.capacity_status
        = CapacityStatus.NaturalPerson
            (capacityPolicySpec ((Now.mk 100 2026).year - 2006) MentalStatus.Normal)
    ∧ ((NaturalPerson.new 1 (Now.mk 100 2026) 2006 MentalStatus.Normal).update_mental_status
          (Now.mk 100 2026) MentalStatus.SeverelyImpaired).base.capacity_status
        = CapacityStatus.NaturalPerson
            (capacityPolicySpec ((Now.mk 100 2026).year - 2006) MentalStatus.SeverelyImpaired) :=
  C1_amended_capacity_classification 1 (Now.mk 100 2026) 2006
    MentalStatus.Normal MentalStatus.SeverelyImpaired
    (NaturalPerson.new 1 (Now.mk 100 2026) 2006 MentalStatus.Normal)
    (by norm_num) (by norm_num) ⟨_, rfl⟩ rfl

/-- Helper: sorting the two collected party ids ignores collection order. -/
theorem sortIds_pair_comm (a b : Uuid) : sortIds [a, b] = sortIds [b, a] := by
  by_cases hab : a ≤ b
  · by_cases hba : b ≤ a
    · have heq : a = b := Nat.le_antisymm hab hba
      rw [heq]
    · simp [sortIds, insertSorted, hab, hba]
  · have hba : b ≤ a := le_of_not_le hab
    simp [sortIds, insertSorted, hab, hba]

/-- Helper: when the declarant and any recipient have capacity,
IntentDeclaration::new returns Ok of the raw instance with its match code
filled in. -/
theorem IntentDeclaration.new_ok (h : String → String) (idv : Uuid)
    (nowv : Int) (dt : DeclarationType) (A : EntityObj)
    (r : Option EntityObj) (C : IntentContent) (vu : Option Int)
    (hA : A.has_capacity = true)
    (hr : (match r with | some B => !B.has_capacity | none => false) = false) :
    IntentDeclaration.new h idv nowv dt A r C vu =
      Except.ok { IntentDeclaration.mkRaw idv nowv dt A r C vu with
        match_code :=
          (IntentDeclaration.mkRaw idv nowv dt A r C vu).calculate_match_code h } := by
  unfold IntentDeclaration.new
  rw [hA, hr]
  rfl

/-- C2: two entities with capacity, an Offer from A to B and an Acceptance
from B to A carrying the same content: both constructions succeed and the
match codes are equal, for every digest function, independently of the
declaration kind, of which party is declarant, and of the ids, times and
deadlines. -/
theorem C2_match_code_symmetric (h : String → String) (A B : EntityObj)
    (C : IntentContent) (idA idB : Uuid) (tA tB : Int)
    (vuA vuB : Option Int)
    (hA : A.has_capacity = true) (hB : B.has_capacity = true) :
    ∃ dA dB,
      IntentDeclaration.new h idA tA DeclarationType.Offer A (some B) C vuA
        = Except.ok dA
      ∧ IntentDeclaration.new h idB tB DeclarationType.Acceptance B (some A) C vuB
        = Except.ok dB
      ∧ dA.match_code = dB.match_code := by
  have e1 := IntentDeclaration.new_ok h idA tA DeclarationType.Offer A
    (some B) C vuA hA (by simp [hB])
  have e2 := IntentDeclaration.new_ok h idB tB DeclarationType.Acceptance B
    (some A) C vuB hB (by simp [hA])
  refine ⟨_, _, e1, e2, ?_⟩
  simp only [IntentDeclaration.calculate_match_code, IntentDeclaration.mkRaw,
    List.cons_append, List.nil_append]
  rw [sortIds_pair_comm A.id B.id]

/-- Concrete clock for the example entities: instant 1000 in year 2026. -/
def egNow : Now := Now.mk 1000 2026

/-- Example adult with full capacity (born 2000, Normal). -/
def personFull : NaturalPerson :=
  NaturalPerson.new 1 egNow 2000 MentalStatus.Normal

/-- Second example adult with full capacity (born 1999, Normal). -/
def personFull2 : NaturalPerson :=
  NaturalPerson.new 2 egNow 1999 MentalStatus.Normal

/-- Example adult without capacity (born 1990, SeverelyImpaired). -/
def personNoCap : NaturalPerson :=
  NaturalPerson.new 3 egNow 1990 MentalStatus.SeverelyImpaired

/-- Example entity A. -/
def egA : EntityObj := EntityObj.naturalPerson personFull

/-- Example entity B. -/
def egB : EntityObj := EntityObj.naturalPerson personFull2

/-- Example entity without capacity. -/
def egNoCapEntity : EntityObj := EntityObj.naturalPerson personNoCap

/-- Example content: one widget for 100 CNY cash. -/
def egContent : IntentContent :=
  { subject_matter :=
      { id := 11
        subject_type := SubjectMatterType.GenericGoods
        name := "widget"
        description := none }
    quantity := some { amount := 1, unit := QuantityUnit.Piece }
    quality := none
    price := some { amount := 100, currency := "CNY",
                    payment_method := "cash", payment_deadline := none }
    time_limit := none
    location := none
    additional_obligations := []
    additional_terms := [] }

/-- Witness for C2_match_code_symmetric at two concrete adults and the
widget-for-100-CNY content, with the identity digest. -/
theorem C2_witness :
    ∃ dA dB,
      IntentDeclaration.new (fun s => s) 7 0 DeclarationType.Offer egA
          (some egB) egContent none = Except.ok dA
      ∧ IntentDeclaration.new (fun s => s) 8 1 DeclarationType.Acceptance egB
          (some egA) egContent none = Except.ok dB
      ∧ dA.match_code = dB.match_code :=
  C2_match_code_symmetric (fun s => s) egA egB egContent 7 8 0 1 none none
    (by decide) (by decide)

/-- Helper: is_valid in spec terms: status Effective and, where a deadline
exists, the current time not past it. -/
theorem is_valid_iff (d : IntentDeclaration) (now : Int) :
    d.is_valid now = true ↔
      (d.status = DeclarationStatus.Effective
       ∧ ∀ t, d.valid_until = some t → now ≤ t) := by
  unfold IntentDeclaration.is_valid
  by_cases hst : d.status = DeclarationStatus.Effective
  · cases hvu : d.valid_until with
    | none => simp [hst, hvu]
    | some t =>
        by_cases hnt : now > t
        · have hle : ¬ now ≤ t := by omega
          simp [hst, hvu, hnt, hle]
        · have hle : now ≤ t := by omega
          simp [hst, hvu, hnt, hle]
  · simp [hst]

/-- C3: can_form_contract_with is true exactly when both declarations are
currently valid (Effective and not past any validity deadline) and the
match codes are equal; so any invalid side forces false even with equal
codes. -/
theorem C3_can_form_contract_iff (d1 d2 : IntentDeclaration) (now : Int) :
    d1.can_form_contract_with d2 now = true ↔
      ((d1.status = DeclarationStatus.Effective
          ∧ ∀ t, d1.valid_until = some t → now ≤ t)
       ∧ (d2.status = DeclarationStatus.Effective
          ∧ ∀ t, d2.valid_until = some t → now ≤ t)
       ∧ d1.match_code = d2.match_code) := by
  rw [← is_valid_iff d1 now, ← is_valid_iff d2 now]
  unfold IntentDeclaration.can_form_contract_with
  by_cases h1 : d1.is_valid now = true <;>
    by_cases h2 : d2.is_valid now = true <;>
      simp [h1, h2]

/-- Concrete effective declaration for witnesses. -/
def egDeclEffective : IntentDeclaration :=
  { IntentDeclaration.mkRaw 21 0 DeclarationType.Offer egA (some egB)
      egContent none with
    status := DeclarationStatus.Effective
    match_code := "mc" }

/-- Witness for C3_can_form_contract_iff at a concrete declaration pair. -/
theorem C3_witness :
    egDeclEffective.can_form_contract_with egDeclEffective 0 = true ↔
      ((egDeclEffective.status = DeclarationStatus.Effective
          ∧ ∀ t, egDeclEffective.valid_until = some t → (0 : Int) ≤ t)
       ∧ (egDeclEffective.status = DeclarationStatus.Effective
          ∧ ∀ t, egDeclEffective.valid_until = some t → (0 : Int) ≤ t)
       ∧ egDeclEffective.match_code = egDeclEffective.match_code) :=
  C3_can_form_contract_iff egDeclEffective egDeclEffective 0

/-- C4: make_effective and revoke succeed exactly from Created, withdraw
exactly from Effective; in every other status the operation returns the
status-illegal error and leaves the state unchanged; hence make_effective
twice fails the second time, revoke after make_effective fails, and
withdraw from a fresh (Created) declaration fails. -/
theorem C4_lifecycle_exclusivity (d : IntentDeclaration) :
    (d.make_effective
        = if d.status = DeclarationStatus.Created
          then (Except.ok (), { d with status := DeclarationStatus.Effective })
          else (Except.error "只有新创建的意思表示才能生效", d))
    ∧ (d.revoke
        = if d.status = DeclarationStatus.Created
          then (Except.ok (), { d with status := DeclarationStatus.Revoked })
          else (Except.error "只能撤回尚未生效的意思表示", d))
    ∧ (d.withdraw
        = if d.status = DeclarationStatus.Effective
          then (Except.ok (), { d with status := DeclarationStatus.Withdrawn })
          else (Except.error "只能撤销已经生效的意思表示", d))
    ∧ d.make_effective.2.make_effective.1
        = Except.error "只有新创建的意思表示才能生效"
    ∧ d.make_effective.2.revoke.1 = Except.error "只能撤回尚未生效的意思表示"
    ∧ (d.status = DeclarationStatus.Created →
        d.withdraw.1 = Except.error "只能撤销已经生效的意思表示") := by
  rcases d with ⟨idv, mc, dt, de, re, co, ca, vu, da, st⟩
  cases st <;>
    simp [IntentDeclaration.make_effective, IntentDeclaration.revoke,
          IntentDeclaration.withdraw]

/-- Concrete freshly created declaration for witnesses. -/
def egDeclCreated : IntentDeclaration :=
  IntentDeclaration.mkRaw 22 0 DeclarationType.Offer egA (some egB)
    egContent none

/-- Witness for C4_lifecycle_exclusivity at a concrete Created
declaration. -/
theorem C4_witness :
    egDeclCreated.make_effective.2.make_effective.1
        = Except.error "只有新创建的意思表示才能生效"
    ∧ egDeclCreated.make_effective.2.revoke.1
        = Except.error "只能撤回尚未生效的意思表示"
    ∧ egDeclCreated.withdraw.1 = Except.error "只能撤销已经生效的意思表示" :=
  ⟨(C4_lifecycle_exclusivity egDeclCreated).2.2.2.1,
   (C4_lifecycle_exclusivity egDeclCreated).2.2.2.2.1,
   (C4_lifecycle_exclusivity egDeclCreated).2.2.2.2.2 rfl⟩

/-- C5 counterexample: a freshly constructed declaration that is revoked has
status Revoked, yet a later mark_as_delivered moves the status back to
Effective — Revoked is not terminal under mark_as_delivered. -/
theorem C5_counterexample :
    Except.map (fun d => d.revoke.2.status)
        (IntentDeclaration.new (fun s => s) 21 0 DeclarationType.Offer egA
          (some egB) egContent none)
      = Except.ok DeclarationStatus.Revoked
    ∧ Except.map (fun d => (d.revoke.2.mark_as_delivered 5).2.status)
        (IntentDeclaration.new (fun s => s) 21 0 DeclarationType.Offer egA
          (some egB) egContent none)
      = Except.ok DeclarationStatus.Effective := by
  constructor <;> rfl

/-- C5 (amended): Revoked and Withdrawn are terminal with respect to
make_effective, revoke and withdraw (each errors and leaves the status
unchanged), but not with respect to mark_as_delivered, which
unconditionally resets the status to Effective. -/
theorem C5_amended_terminal (d : IntentDeclaration) (now : Int)
    (h : d.status = DeclarationStatus.Revoked
         ∨ d.status = DeclarationStatus.Withdrawn) :
    d.make_effective.2.status = d.status
    ∧ d.revoke.2.status = d.status
    ∧ d.withdraw.2.status = d.status
    ∧ (d.mark_as_delivered now).2.status = DeclarationStatus.Effective := by
  rcases h with h | h <;>
    simp [IntentDeclaration.make_effective, IntentDeclaration.revoke,
          IntentDeclaration.withdraw, IntentDeclaration.mark_as_delivered, h]

/-- Concrete revoked declaration for witnesses. -/
def egDeclRevoked : IntentDeclaration :=
  (IntentDeclaration.mkRaw 23 0 DeclarationType.Offer egA (some egB)
    egContent none).revoke.2

/-- Witness for C5_amended_terminal at a concrete revoked declaration. -/
theorem C5_witness :
    egDeclRevoked.make_effective.2.status = egDeclRevoked.status
    ∧ egDeclRevoked.revoke.2.status = egDeclRevoked.status
    ∧ egDeclRevoked.withdraw.2.status = egDeclRevoked.status
    ∧ (egDeclRevoked.mark_as_delivered 9).2.status
        = DeclarationStatus.Effective :=
  C5_amended_terminal egDeclRevoked 9 (Or.inl rfl)

/-- C6: construction returns the capacity validation error (and no
declaration) whenever the declarant or a supplied recipient lacks
capacity; with capable parties it succeeds, starting at Created with the
match code already computed from the final instance. -/
theorem C6_construction_capacity (h : String → String) (idv : Uuid)
    (nowv : Int) (dt : DeclarationType) (A : EntityObj)
    (r : Option EntityObj) (C : IntentContent) (vu : Option Int) :
    (A.has_capacity = false →
       IntentDeclaration.new h idv nowv dt A r C vu
         = Except.error (FanError.ValidationError "表意人无行为能力"))
    ∧ (∀ B, r = some B → A.has_capacity = true → B.has_capacity = false →
       IntentDeclaration.new h idv nowv dt A r C vu
         = Except.error (FanError.ValidationError "相对人无行为能力"))
    ∧ (A.has_capacity = true →
       (∀ B, r = some B → B.has_capacity = true) →
       ∃ d, IntentDeclaration.new h idv nowv dt A r C vu = Except.ok d
         ∧ d.status = DeclarationStatus.Created
         ∧ d.match_code = d.calculate_match_code h) := by
  refine ⟨?_, ?_, ?_⟩
  · intro hA
    unfold IntentDeclaration.new
    rw [hA]
    rfl
  · intro B hr hA hB
    unfold IntentDeclaration.new
    rw [hA, hr]
    simp [hB]
  · intro hA hr
    cases r with
    | none =>
        rw [IntentDeclaration.new_ok h idv nowv dt A none C vu hA rfl]
        exact ⟨_, rfl, rfl, rfl⟩
    | some B =>
        rw [IntentDeclaration.new_ok h idv nowv dt A (some B) C vu hA
          (by simp [hr B rfl])]
        exact ⟨_, rfl, rfl, rfl⟩

/-- Witness for C6_construction_capacity: a severely impaired declarant is
rejected, a severely impaired recipient is rejected, and two capable
parties yield a Created declaration with its match code set. -/
theorem C6_witness :
    IntentDeclaration.new (fun s => s) 9 0 DeclarationType.Offer egNoCapEntity
        (some egB) egContent none
      = Except.error (FanError.ValidationError "表意人无行为能力")
    ∧ IntentDeclaration.new (fun s => s) 9 0 DeclarationType.Offer egA
        (some egNoCapEntity) egContent none
      = Except.error (FanError.ValidationError "相对人无行为能力")
    ∧ ∃ d, IntentDeclaration.new (fun s => s) 9 0 DeclarationType.Offer egA
        (some egB) egContent none = Except.ok d
      ∧ d.status = DeclarationStatus.Created
      ∧ d.match_code = d.calculate_match_code (fun s => s) :=
  ⟨(C6_construction_capacity (fun s => s) 9 0 DeclarationType.Offer
      egNoCapEntity (some egB) egContent none).1 (by decide),
   (C6_construction_capacity (fun s => s) 9 0 DeclarationType.Offer
      egA (some egNoCapEntity) egContent none).2.1
      egNoCapEntity rfl (by decide) (by decide),
   (C6_construction_capacity (fun s => s) 9 0 DeclarationType.Offer
      egA (some egB) egContent none).2.2 (by decide)
      (fun B hB => by
        have hBe : egB = B := Option.some.inj hB
        subst hBe
        decide)⟩

/-- Content with subject-matter kind Other but an empty name, refuting the
unconditional clause of C7. -/
def c7content : IntentContent :=
  { subject_matter :=
      { id := 31
        subject_type := SubjectMatterType.Other "misc"
        name := ""
        description := none }
    quantity := none
    quality := none
    price := some { amount := 50, currency := "CNY",
                    payment_method := "cash", payment_deadline := none }
    time_limit := none
    location := none
    additional_obligations := []
    additional_terms := [] }

/-- C7 counterexample: for subject-matter kind Other the claim says
is_essential is true unconditionally, but with an empty subject-matter
name the code returns false (the emptiness guard precedes the per-kind
branching). -/
theorem C7_counterexample :
    c7content.subject_matter.subject_type = SubjectMatterType.Other "misc"
    ∧ c7content.is_essential = false :=
  ⟨rfl, rfl⟩

/-- C7 (amended): is_essential is true iff the subject-matter name is
non-empty AND the per-kind minimum holds: goods need a price; services
need a time limit and a price; intellectual property needs a price and a
non-empty extra-terms map; any other kind has no further requirement. -/
theorem C7_amended_is_essential (c : IntentContent) :
    c.is_essential = true ↔
      (¬ c.subject_matter.name = ""
       ∧ match c.subject_matter.subject_type with
         | SubjectMatterType.SpecificGoods => c.price.isSome = true
         | SubjectMatterType.GenericGoods => c.price.isSome = true
         | SubjectMatterType.Service =>
             c.time_limit.isSome = true ∧ c.price.isSome = true
         | SubjectMatterType.IntellectualProperty =>
             c.price.isSome = true ∧ ¬ c.additional_terms = []
         | SubjectMatterType.Other _ => True) := by
  unfold IntentContent.is_essential
  by_cases hn : c.subject_matter.name = ""
  · simp [hn, String.isEmpty_iff]
  · have hne : c.subject_matter.name.isEmpty = false := by
      rcases Bool.eq_false_or_eq_true c.subject_matter.name.isEmpty with h | h
      · exact absurd ((String.isEmpty_iff c.subject_matter.name).mp h) hn
      · exact h
    cases ht : c.subject_matter.subject_type <;>
      simp [hne, ht, hn, List.isEmpty_iff]

/-- Witness for C7_amended_is_essential at the widget content. -/
theorem C7_witness :
    egContent.is_essential = true ↔
      (¬ egContent.subject_matter.name = ""
       ∧ match egContent.subject_matter.subject_type with
         | SubjectMatterType.SpecificGoods => egContent.price.isSome = true
         | SubjectMatterType.GenericGoods => egContent.price.isSome = true
         | SubjectMatterType.Service =>
             egContent.time_limit.isSome = true
             ∧ egContent.price.isSome = true
         | SubjectMatterType.IntellectualProperty =>
             egContent.price.isSome = true
             ∧ ¬ egContent.additional_terms = []
         | SubjectMatterType.Other _ => True) :=
  C7_amended_is_essential egContent

/-- Helper: can_be_guardian in spec terms: Full natural-person capacity,
Normal mental status, and age at least 18. -/
theorem can_be_guardian_iff (p : NaturalPerson) (y : Int) :
    p.can_be_guardian y = true ↔
      (p.base.capacity_status
          = CapacityStatus.NaturalPerson NaturalCapacity.Full
       ∧ p.mental_status = MentalStatus.Normal
       ∧ 18 ≤ p.age y) := by
  cases hc : p.base.capacity_status with
  | NaturalPerson c =>
      cases c <;> simp [NaturalPerson.can_be_guardian, hc, and_assoc]
  | LegalPerson s => simp [NaturalPerson.can_be_guardian, hc]
  | UnincorporatedOrg s => simp [NaturalPerson.can_be_guardian, hc]

/-- C8: set_guardian fails, mutating neither party, unless the prospective
guardian simultaneously has Full natural-person capacity, Normal mental
status and age at least 18; on success it records the guardianship
relation on the ward (guardian id, ward id, scope, creation time) and sets
the guardian's flag, bumping both update timestamps. -/
theorem C8_set_guardian (ward guardian : NaturalPerson)
    (scope : GuardianshipScope) (now : Now) :
    (¬ (guardian.base.capacity_status
          = CapacityStatus.NaturalPerson NaturalCapacity.Full
        ∧ guardian.mental_status = MentalStatus.Normal
        ∧ 18 ≤ guardian.age now.year) →
      NaturalPerson.set_guardian ward guardian scope now
        = (Except.error (FanError.ValidationError "Invalid guardian"),
           ward, guardian))
    ∧ ((guardian.base.capacity_status
          = CapacityStatus.NaturalPerson NaturalCapacity.Full
        ∧ guardian.mental_status = MentalStatus.Normal
        ∧ 18 ≤ guardian.age now.year) →
      NaturalPerson.set_guardian ward guardian scope now
        = (Except.ok (),
           { ward with
             guardian := some
               { guardian := guardian.base.id
                 ward := ward.base.id
                 scope := scope
                 created_at := now.instant
                 valid_until := none }
             base := { ward.base with updated_at := now.instant } },
           { guardian with
             is_guardian := true
             base := { guardian.base with updated_at := now.instant } })) := by
  constructor
  · intro hnot
    have hcan : guardian.can_be_guardian now.year = false := by
      rcases Bool.eq_false_or_eq_true (guardian.can_be_guardian now.year)
        with hb | hb
      · exact absurd ((can_be_guardian_iff guardian now.year).mp hb) hnot
      · exact hb
    simp [NaturalPerson.set_guardian, hcan]
  · intro hyes
    have hcan : guardian.can_be_guardian now.year = true :=
      (can_be_guardian_iff guardian now.year).mpr hyes
    simp [NaturalPerson.set_guardian, hcan]

/-- Concrete guardianship scope for witnesses. -/
def egScope : GuardianshipScope := { permitted_actions := ["care"] }

/-- Witness for C8_set_guardian: a Full/Normal adult is accepted as
guardian of the impaired ward (both records mutated as specified); the
impaired person is rejected as guardian and neither record changes. -/
theorem C8_witness :
    NaturalPerson.set_guardian personNoCap personFull egScope egNow
      = (Except.ok (),
         { personNoCap with
           guardian := some
             { guardian := personFull.base.id
               ward := personNoCap.base.id
               scope := egScope
               created_at := egNow.instant
               valid_until := none }
           base := { personNoCap.base with updated_at := egNow.instant } },
         { personFull with
           is_guardian := true
           base := { personFull.base with updated_at := egNow.instant } })
    ∧ NaturalPerson.set_guardian personFull personNoCap egScope egNow
      = (Except.error (FanError.ValidationError "Invalid guardian"),
         personFull, personNoCap) :=
  ⟨(C8_set_guardian personNoCap personFull egScope egNow).2
      ⟨by decide, by decide, by decide⟩,
   (C8_set_guardian personFull personNoCap egScope egNow).1 (by decide)⟩

/-- C9: has_capacity of an unincorporated organization (plain and
thread-safe) is true for every authority scope, Suspended included, and
such an organization passes IntentDeclaration::new and
BaseContract::validate_parties as a capable party. -/
theorem C9_suspended_org_accepted (o : UnincorporatedOrg)
    (so : SyncUnincorporatedOrg) (s t : AuthorityScope)
    (h : String → String) (idv : Uuid) (nowv : Int) (dt : DeclarationType)
    (C : IntentContent) (vu : Option Int)
    (ho : o.base.capacity_status = CapacityStatus.UnincorporatedOrg s)
    (hso : so.base.capacity_status = CapacityStatus.UnincorporatedOrg t) :
    o.has_capacity = true
    ∧ so.has_capacity = true
    ∧ (∃ d, IntentDeclaration.new h idv nowv dt
          (EntityObj.unincorporatedOrg o) none C vu = Except.ok d)
    ∧ BaseContract.validate_parties [EntityObj.unincorporatedOrg o]
        = Except.ok () := by
  have hcap : o.has_capacity = true := by
    unfold UnincorporatedOrg.has_capacity
    rw [ho]
  have hobj : (EntityObj.unincorporatedOrg o).has_capacity = true := by
    simp [EntityObj.has_capacity, hcap]
  refine ⟨hcap, ?_, ?_, ?_⟩
  · unfold SyncUnincorporatedOrg.has_capacity
    rw [hso]
  · exact ⟨_, IntentDeclaration.new_ok h idv nowv dt
      (EntityObj.unincorporatedOrg o) none C vu hobj rfl⟩
  · simp [BaseContract.validate_parties, List.find?, hobj]

/-- Authority scope with Suspended status for the C9 witness. -/
def suspendedScope : AuthorityScope :=
  { status := AuthorityStatus.Suspended
    permitted_authorities := []
    restrictions := none }

/-- Concrete suspended unincorporated organization. -/
def egOrgSuspended : UnincorporatedOrg :=
  { base :=
      { id := 40
        entity_type := EntityType.UnincorporatedOrg
        capacity_status := CapacityStatus.UnincorporatedOrg suspendedScope
        created_at := 0
        updated_at := 0 }
    org_type := UnincorporatedOrgType.Partnership
    executive_partner := none
    proprietor := none
    registered_address := "addr"
    establishment_date := 0 }

/-- Concrete suspended thread-safe unincorporated organization. -/
def egSyncOrgSuspended : SyncUnincorporatedOrg :=
  { base := egOrgSuspended.base
    org_type := UnincorporatedOrgType.Partnership }

/-- Witness for C9_suspended_org_accepted at a concrete Suspended
organization. -/
theorem C9_witness :
    egOrgSuspended.has_capacity = true
    ∧ egSyncOrgSuspended.has_capacity = true
    ∧ (∃ d, IntentDeclaration.new (fun s => s) 41 0 DeclarationType.Offer
          (EntityObj.unincorporatedOrg egOrgSuspended) none egContent none
        = Except.ok d)
    ∧ BaseContract.validate_parties
        [EntityObj.unincorporatedOrg egOrgSuspended] = Except.ok () :=
  C9_suspended_org_accepted egOrgSuspended egSyncOrgSuspended
    suspendedScope suspendedScope (fun s => s) 41 0 DeclarationType.Offer
    egContent none rfl rfl

/-- SyncNaturalPerson::set_guardian lock acquisition (natural_person.rs
362-367): which Arc is locked first is chosen by comparing the transient
allocation addresses, Arc::as_ptr(ward) < Arc::as_ptr(guardian); true
means the ward Arc is locked first. -/
def SyncNaturalPerson.locks_ward_first (wardAddr guardianAddr : Nat) :
    Bool :=
  if wardAddr < guardianAddr then true else false

/-- C10 evidence: with the same two entities, the lock-acquisition order of
the thread-safe set_guardian flips when the transient address assignment
flips, so the order is a function of memory addresses, not of a stable
total order over entity identities. -/
theorem C10_lock_order_address_based :
    SyncNaturalPerson.locks_ward_first 100 200 = true
    ∧ SyncNaturalPerson.locks_ward_first 200 100 = false :=
  ⟨rfl, rfl⟩
